import Mathlib

/-!
Verification of the credis protocol engine (src/credis.c) against its
natural-language specification.  The C code is shallowly embedded: the
receive buffer is a list of characters together with the `idx` (read
cursor), `len` (used length) and `size` (capacity) fields of the C
`cr_buffer` struct; the network is a list of receive events consumed by
`cr_receivedata`; machine ints are modelled as `Int`/`Nat` (no overflow
is exercised by any claim).  Reply values that the C code returns as
pointers into the shared buffer are modelled as offsets into the buffer
array, so aliasing and stale-pointer behaviour are preserved.
-/

set_option maxRecDepth 100000

namespace Credis

/-! Error codes from credis.h. -/

def CREDIS_OK : Int := 0
def CREDIS_ERR_NOMEM : Int := -91
def CREDIS_ERR_SEND : Int := -94
def CREDIS_ERR_RECV : Int := -95
def CREDIS_ERR_TIMEOUT : Int := -96
def CREDIS_ERR_PROTOCOL : Int := -97

def CR_BUFFER_SIZE : Nat := 4096
def CR_MULTIBULK_SIZE : Int := 64

/-- Size of a `char *` on the (LP64) platforms credis targets; used to
relate the byte count passed to `realloc` with the number of pointer
slots it buys. -/
def ptrSize : Nat := 8

/-- Read a byte of the buffer array at a (possibly out-of-range) offset.
Offsets below 0 or at/after the end of the array are reads the C code
could only answer with junk; the model answers NUL, which suffices
because no claim's verdict depends on such a byte's particular value. -/
def getC (a : List Char) (i : Int) : Char :=
  if i < 0 then '\x00' else a.getD i.toNat '\x00'

/-- Write a byte of the buffer array, no-op when out of range. -/
def setC (a : List Char) (i : Int) (c : Char) : List Char :=
  if i < 0 then a else a.set i.toNat c

/-- memcpy of `bytes` into the array at position `pos`. -/
def writeAt (a : List Char) (pos : Nat) (bytes : List Char) : List Char :=
  a.take pos ++ bytes ++ a.drop (pos + bytes.length)

/-- The zero-terminated C string starting at offset `off` of the array. -/
def cstr (a : List Char) (off : Nat) : List Char :=
  (a.drop off).takeWhile (fun c => c != '\x00')

def crAtoiDigits : List Char → Int → Int
  | [], acc => acc
  | c :: rest, acc =>
      if c.isDigit then crAtoiDigits rest (acc * 10 + ((c.toNat : Int) - 48)) else acc

/-- C `atoi`: skip whitespace, optional sign, then a maximal digit run;
a string with no leading digits parses as 0. -/
def crAtoi (s : List Char) : Int :=
  let s := s.dropWhile (fun c =>
    c == ' ' || c == '\t' || c == '\n' || c == '\x0B' || c == '\x0C' || c == '\r')
  match s with
  | '-' :: rest => - crAtoiDigits rest 0
  | '+' :: rest => crAtoiDigits rest 0
  | _ => crAtoiDigits s 0

/-- cr_findnl: scan `count` positions starting at absolute offset `base`
for a CR, and on each CR hit peek at the following byte for a LF (the
peek may look one byte past the scanned range, exactly as the C loop
does).  Returns the absolute offset of the '\r' of the first "\r\n". -/
def cr_findnl (a : List Char) (base : Int) : Nat → Option Int
  | 0 => none
  | count + 1 =>
      if getC a base = '\r' ∧ getC a (base + 1) = '\n' then some base
      else cr_findnl a (base + 1) count

/-- The cr_buffer struct: data array plus idx (read cursor), len (used
length) and size (capacity).  `size = data.length` holds in every state
the client constructs. -/
structure cr_buffer where
  data : List Char
  idx : Nat
  len : Nat
  size : Nat
deriving DecidableEq

/-- cr_moremem: grow the buffer by `(size / CR_BUFFER_SIZE + 1)` chunks
of CR_BUFFER_SIZE bytes.  The realloc'd tail is uninitialized in C and
modelled as NUL bytes; allocation failure (CREDIS_ERR_NOMEM) is not
modelled since no claim concerns it. -/
def cr_moremem (buf : cr_buffer) (size : Nat) : cr_buffer :=
  let n := size / CR_BUFFER_SIZE + 1
  { buf with data := buf.data ++ List.replicate (n * CR_BUFFER_SIZE) '\x00',
             size := buf.size + n * CR_BUFFER_SIZE }

/-- One event of the network stream feeding cr_receivedata: a burst of
readable bytes, end of stream, a hard socket error, or an elapsed
select() timeout.  An exhausted stream behaves like a timeout. -/
inductive RecvEvent
  | data (bytes : List Char)
  | eof
  | err
  | timeout
deriving DecidableEq

def eventBytes : List RecvEvent → Nat
  | [] => 0
  | .data bytes :: rest => bytes.length + eventBytes rest
  | _ :: rest => eventBytes rest

/-- Fuel that dominates the number of recv rounds a single cr_readln can
perform on the given stream (reducible so the fuel exposes its successor
structure to reduction). -/
abbrev fuelFor (events : List RecvEvent) : Nat :=
  events.length + eventBytes events + 1

/-- cr_receivedata: select() then one recv() of at most `avail` bytes.
Returns (rc, bytes read, rest of stream): rc > 0 bytes read, 0 peer
closed, -1 error, -2 timeout.  A burst larger than `avail` is read
partially and the remainder stays readable. -/
def cr_receivedata (avail : Nat) : List RecvEvent → Int × List Char × List RecvEvent
  | [] => (-2, [], [])
  | .timeout :: rest => (-2, [], rest)
  | .err :: rest => (-1, [], rest)
  | .eof :: rest => (0, [], rest)
  | .data bytes :: rest =>
      let taken := bytes.take avail
      let left := bytes.drop avail
      if taken.isEmpty then (0, [], rest)
      else ((taken.length : Int), taken, if left.isEmpty then rest else .data left :: rest)

/-- The while loop of cr_readln: scan for "\r\n" from `idx + start` over
`len - idx` positions; on failure grow the buffer when free space is
under CR_BUFFER_SIZE/10, receive more bytes at `len`, and rescan.  On
success the '\r' is overwritten with NUL, the result is
(line length, offset written to *line, buffer, stream); EOF returns 0
and error/timeout returns -1 with *line left unwritten (`none`).
`none` at the outer level means the fuel ran out (never reached from
`cr_readln`, whose fuel dominates the stream). -/
def cr_readlnAux (start : Int) : Nat → cr_buffer → List RecvEvent →
    Option (Int × Option Nat × cr_buffer × List RecvEvent)
  | fuel, buf, events =>
    match cr_findnl buf.data ((buf.idx : Int) + start) (buf.len - buf.idx), fuel with
    | some nl, _ =>
        some (nl - (buf.idx : Int), some buf.idx,
          { buf with data := setC buf.data nl '\x00', idx := (nl + 2).toNat }, events)
    | none, 0 => none
    | none, fuel + 1 =>
        let buf := if buf.size - buf.len < CR_BUFFER_SIZE / 10 then cr_moremem buf 1 else buf
        let r := cr_receivedata (buf.size - buf.len) events
        if r.1 > 0 then
          cr_readlnAux start fuel
            { buf with data := writeAt buf.data buf.len r.2.1, len := buf.len + r.2.1.length }
            r.2.2
        else if r.1 = 0 then some (0, none, buf, r.2.2)
        else some (-1, none, buf, r.2.2)

/-- cr_readln: reset the buffer bookkeeping when it is empty or fully
consumed (`len == 0 || idx >= len`), then run the scan/receive loop. -/
def cr_readln (buf : cr_buffer) (events : List RecvEvent) (start : Int) :
    Option (Int × Option Nat × cr_buffer × List RecvEvent) :=
  let buf := if buf.len = 0 ∨ buf.idx ≥ buf.len then { buf with idx := 0, len := 0 } else buf
  cr_readlnAux start (fuelFor events) buf events

/-- The cr_multibulk struct (`bulks`, `size`, `len`) plus `allocBytes`,
the model of how many bytes are currently allocated to the `bulks`
pointer array on the heap (initially `sizeof(char *) * CR_MULTIBULK_SIZE`,
thereafter whatever byte count was passed to realloc). -/
structure cr_multibulk where
  bulks : List (Option Nat)
  allocBytes : Nat
  size : Int
  len : Nat
deriving DecidableEq

structure cr_reply where
  integer : Int
  line : Option Nat
  bulk : Option Nat
  multibulk : cr_multibulk
deriving DecidableEq

/-- The per-connection state the protocol engine touches: the shared
buffer, the incoming byte stream, and the reply slot. -/
structure CrState where
  buf : cr_buffer
  events : List RecvEvent
  reply : cr_reply
deriving DecidableEq

/-- The growth step of cr_receivemultibulk: when the element count
exceeds the recorded size, realloc the pointer array to
`(bnum / CR_MULTIBULK_SIZE + 1) * CR_MULTIBULK_SIZE` BYTES (the byte
count the C code passes to realloc).  The `size` field is not updated,
exactly as in the source. -/
def cr_mb_realloc (mb : cr_multibulk) (bnum : Int) : cr_multibulk :=
  if bnum > mb.size then
    { mb with allocBytes := ((bnum / CR_MULTIBULK_SIZE + 1) * CR_MULTIBULK_SIZE).toNat }
  else mb

/-- Store into `bulks[i]`; the list is the heap content, so the write
always lands (allocation-bounds violations are judged against
`allocBytes` separately). -/
def storePtr (l : List (Option Nat)) (i : Nat) (v : Option Nat) : List (Option Nat) :=
  (l ++ List.replicate (i + 1 - l.length) none).set i v

/-- Fuel dominating the multibulk element loop (reducible, as
`fuelFor`). -/
abbrev mbFuel (bnum : Int) (events : List RecvEvent) : Nat :=
  bnum.natAbs + fuelFor events + 1

/-- The element loop of cr_receivemultibulk
(`for ( ; bnum && cr_readln(rhnd, 0, &line) > 0; bnum--)`), with the C
local `line` threaded through as `lineVar`.  Exits: `bnum = 0` falls
through and records `len = i`; a failed element read returns
CREDIS_ERR_PROTOCOL (the post-loop `bnum != 0` check or the in-loop tag
and length checks). -/
def cr_mbLoop : Nat → CrState → Int → Nat → Nat → Option (Int × CrState)
  | fuel, st, bnum, i, lineVar =>
    if bnum = 0 then
      some (CREDIS_OK,
        { st with reply := { st.reply with multibulk := { st.reply.multibulk with len := i } } })
    else
      match fuel with
      | 0 => none
      | fuel + 1 =>
        match cr_readln st.buf st.events 0 with
        | none => none
        | some (rc, w, buf', ev') =>
          let st := { st with buf := buf', events := ev' }
          if rc > 0 then
            let lineVar := w.getD lineVar
            if getC st.buf.data lineVar ≠ '$' then some (CREDIS_ERR_PROTOCOL, st)
            else
              let lineVar := lineVar + 1
              let blen := crAtoi (cstr st.buf.data lineVar)
              if blen = -1 then
                cr_mbLoop fuel
                  { st with reply := { st.reply with multibulk :=
                      { st.reply.multibulk with
                          bulks := storePtr st.reply.multibulk.bulks i none } } }
                  (bnum - 1) (i + 1) lineVar
              else
                match cr_readln st.buf st.events blen with
                | none => none
                | some (rc2, w2, buf2, ev2) =>
                  let st := { st with buf := buf2, events := ev2 }
                  let lineVar := w2.getD lineVar
                  if rc2 ≠ blen then some (CREDIS_ERR_PROTOCOL, st)
                  else
                    cr_mbLoop fuel
                      { st with reply := { st.reply with multibulk :=
                          { st.reply.multibulk with
                              bulks := storePtr st.reply.multibulk.bulks i (some lineVar) } } }
                      (bnum - 1) (i + 1) lineVar
          else some (CREDIS_ERR_PROTOCOL, st)

/-- cr_receivemultibulk: parse the element count with atoi, maybe grow
the pointer array, then run the element loop. -/
def cr_receivemultibulk (st : CrState) (lineOff : Nat) : Option (Int × CrState) :=
  let bnum := crAtoi (cstr st.buf.data lineOff)
  let st := { st with reply := { st.reply with
      multibulk := cr_mb_realloc st.reply.multibulk bnum } }
  cr_mbLoop (mbFuel bnum st.events) st bnum 0 lineOff

/-- cr_receivebulk: parse the length with atoi, skip that many bytes
with cr_readln, and accept ANY non-negative readln result as the bulk
value (`if (cr_readln(rhnd, blen, &line) >= 0)`); only a negative
result yields CREDIS_ERR_PROTOCOL.  On an EOF result (0) the stale
`line` pointer is stored. -/
def cr_receivebulk (st : CrState) (lineOff : Nat) : Option (Int × CrState) :=
  let blen := crAtoi (cstr st.buf.data lineOff)
  match cr_readln st.buf st.events blen with
  | none => none
  | some (rc, w, buf', ev') =>
    if rc ≥ 0 then
      some (CREDIS_OK,
        { st with buf := buf', events := ev',
                  reply := { st.reply with bulk := some (w.getD lineOff) } })
    else
      some (CREDIS_ERR_PROTOCOL, { st with buf := buf', events := ev' })

/-- cr_receivereply: reset the shared buffer, read the type-tag line,
check the tag against the expected one, and dispatch.  A tag that is
neither the expected one nor '-' is CREDIS_ERR_PROTOCOL; a failed line
read (EOF or error) is CREDIS_ERR_RECV, as is a tag that matches
`recvtype` but is none of the five (the switch falls through). -/
def cr_receivereply (st : CrState) (recvtype : Char) : Option (Int × CrState) :=
  let st := { st with buf := { st.buf with len := 0, idx := 0 } }
  match cr_readln st.buf st.events 0 with
  | none => none
  | some (rc, w, buf', ev') =>
    let st := { st with buf := buf', events := ev' }
    if rc > 0 then
      let lineOff := w.getD 0
      let pfx := getC st.buf.data lineOff
      let lineOff := lineOff + 1
      if pfx ≠ recvtype ∧ pfx ≠ '-' then some (CREDIS_ERR_PROTOCOL, st)
      else if pfx = '-' then
        some (CREDIS_ERR_PROTOCOL, { st with reply := { st.reply with line := some lineOff } })
      else if pfx = '+' then
        some (CREDIS_OK, { st with reply := { st.reply with line := some lineOff } })
      else if pfx = ':' then
        some (CREDIS_OK,
          { st with reply := { st.reply with integer := crAtoi (cstr st.buf.data lineOff) } })
      else if pfx = '$' then cr_receivebulk st lineOff
      else if pfx = '*' then cr_receivemultibulk st lineOff
      else some (CREDIS_ERR_RECV, st)
    else some (CREDIS_ERR_RECV, st)

/-- The buffer as cr_new makes it: CR_BUFFER_SIZE bytes (uninitialized
in C, NUL in the model), empty. -/
def initBuf : cr_buffer :=
  { data := List.replicate CR_BUFFER_SIZE '\x00', idx := 0, len := 0, size := CR_BUFFER_SIZE }

/-- The multibulk slot as cr_new makes it: room for CR_MULTIBULK_SIZE
pointers, recorded size CR_MULTIBULK_SIZE. -/
def initMultibulk : cr_multibulk :=
  { bulks := List.replicate 64 none, allocBytes := 64 * ptrSize, size := 64, len := 0 }

def initReply : cr_reply :=
  { integer := 0, line := none, bulk := none, multibulk := initMultibulk }

/-- A fresh connection state about to receive the given stream. -/
def initState (events : List RecvEvent) : CrState :=
  { buf := initBuf, events := events, reply := initReply }

/-- Buffer state mid-bulk-decode: the reply "$5\r\nab\r\n" has arrived
up to "ab\r\n" (used = 8, cursor = 4 after the header line was consumed
and its '\r' zero-terminated); the 8 bytes beyond `used` are whatever
junk the allocation held.  Here: all NUL. -/
def c5dataA : List Char :=
  '$' :: '5' :: '\x00' :: '\n' :: 'a' :: 'b' :: '\r' :: '\n' :: List.replicate 8 '\x00'

/-- Same buffer as `c5dataA` on the first 8 (= used) bytes, but with
stale junk bytes "\r\n" at positions 9 and 10, beyond `used`. -/
def c5dataB : List Char :=
  '$' :: '5' :: '\x00' :: '\n' :: 'a' :: 'b' :: '\r' :: '\n' ::
    '\x00' :: '\r' :: '\n' :: List.replicate 5 '\x00'

/-- Buffer after the header line of "$5\r\n" + EOF has been read and
consumed (cursor 4, '\r' zero-terminated). -/
def c1B1 : cr_buffer :=
  ⟨'$' :: '5' :: '\x00' :: '\n' :: List.replicate 4092 '\x00', 4, 4, 4096⟩

/-- `c1B1` after the payload-read attempt hit EOF: the entry reset
zeroed cursor and used length, nothing was received. -/
def c1B2 : cr_buffer :=
  ⟨'$' :: '5' :: '\x00' :: '\n' :: List.replicate 4092 '\x00', 0, 0, 4096⟩

/-- Buffer after the single burst "*1\r\n$-1\r\n" was received and the
header line consumed. -/
def c2B1 : cr_buffer :=
  ⟨'*' :: '1' :: '\x00' :: '\n' :: '$' :: '-' :: '1' :: '\r' :: '\n' ::
    List.replicate 4087 '\x00', 4, 9, 4096⟩

/-- `c2B1` after the element line "$-1" was consumed as well. -/
def c2B2 : cr_buffer :=
  ⟨'*' :: '1' :: '\x00' :: '\n' :: '$' :: '-' :: '1' :: '\x00' :: '\n' ::
    List.replicate 4087 '\x00', 9, 9, 4096⟩

def c2S1 (rest : List RecvEvent) : CrState :=
  { buf := c2B1, events := rest, reply := initReply }

def c2S2 (rest : List RecvEvent) : CrState :=
  { buf := c2B2, events := rest,
    reply :=
      { integer := 0, line := none, bulk := none,
        multibulk :=
          { bulks := none :: List.replicate 63 none,
            allocBytes := 64 * ptrSize, size := 64, len := 0 } } }

def c2S3 (rest : List RecvEvent) : CrState :=
  { buf := c2B2, events := rest,
    reply :=
      { integer := 0, line := none, bulk := none,
        multibulk :=
          { bulks := none :: List.replicate 63 none,
            allocBytes := 64 * ptrSize, size := 64, len := 1 } } }

/-- Buffer after the first burst "*1\r\n" was received and consumed as
the multi-bulk header line; the buffer is now fully consumed
(cursor = used = 4), the state in which the next cr_readln resets. -/
def c3B1 : cr_buffer :=
  ⟨'*' :: '1' :: '\x00' :: '\n' :: List.replicate 4092 '\x00', 4, 4, 4096⟩

/-- Buffer after the second burst "$1\r\n<c>\r\n" was received: the
mid-decode reset wrote it over position 0, destroying the header
bytes, and the element line "$1" was consumed. -/
def c3B2 (c : Char) : cr_buffer :=
  ⟨'$' :: '1' :: '\x00' :: '\n' :: c :: '\r' :: '\n' ::
    List.replicate 4089 '\x00', 4, 7, 4096⟩

/-- `c3B2` after the 1-byte payload and its terminator were consumed. -/
def c3B3 (c : Char) : cr_buffer :=
  ⟨'$' :: '1' :: '\x00' :: '\n' :: c :: '\x00' :: '\n' ::
    List.replicate 4089 '\x00', 7, 7, 4096⟩

def c3S1 (c : Char) (rest : List RecvEvent) : CrState :=
  { buf := c3B1,
    events := .data ('$' :: '1' :: '\r' :: '\n' :: c :: '\r' :: '\n' :: []) :: rest,
    reply := initReply }

def c3S2 (c : Char) (rest : List RecvEvent) : CrState :=
  { buf := c3B3 c, events := rest,
    reply :=
      { integer := 0, line := none, bulk := none,
        multibulk :=
          { bulks := some 4 :: List.replicate 63 none,
            allocBytes := 64 * ptrSize, size := 64, len := 0 } } }

def c3S3 (c : Char) (rest : List RecvEvent) : CrState :=
  { buf := c3B3 c, events := rest,
    reply :=
      { integer := 0, line := none, bulk := none,
        multibulk :=
          { bulks := some 4 :: List.replicate 63 none,
            allocBytes := 64 * ptrSize, size := 64, len := 1 } } }

/-- Buffer after the single burst "$-1\r\n" was received and the header
line consumed (the standalone nil bulk reply of C2's counterexample). -/
def c2D1 : cr_buffer :=
  ⟨'$' :: '-' :: '1' :: '\x00' :: '\n' :: List.replicate 4091 '\x00', 5, 5, 4096⟩

/-- Buffer after the single burst "$x\r\n\r\n" was received and the
header line consumed (C8's malformed bulk length). -/
def c8B1 : cr_buffer :=
  ⟨'$' :: 'x' :: '\x00' :: '\n' :: '\r' :: '\n' :: List.replicate 4090 '\x00', 4, 6, 4096⟩

/-- `c8B1` after the empty payload line was consumed as well. -/
def c8B2 : cr_buffer :=
  ⟨'$' :: 'x' :: '\x00' :: '\n' :: '\x00' :: '\n' :: List.replicate 4090 '\x00', 6, 6, 4096⟩

/-! Step lemmas.  Evaluating a whole command round trip in one go makes
the term blow up (every decoder layer re-evaluates the layers below),
so the claim proofs instead rewrite one protocol step at a time, each
step supplying the literal intermediate buffer. -/

/-- cr_receivereply dispatches to the bulk decoder when the tag-line
read succeeds and the tag byte is '$'. -/
theorem receivereply_to_bulk (st : CrState) (rc : Int) (w : Option Nat) (lineOff : Nat)
    (buf' : cr_buffer) (ev' : List RecvEvent)
    (h : cr_readln { st.buf with len := 0, idx := 0 } st.events 0 = some (rc, w, buf', ev'))
    (hrc : 0 < rc)
    (hw : w.getD 0 + 1 = lineOff)
    (hpfx : getC buf'.data ((w.getD 0 : Nat) : Int) = '$') :
    cr_receivereply st '$'
      = cr_receivebulk { st with buf := buf', events := ev' } lineOff := by
  unfold cr_receivereply
  simp only [h, if_pos hrc, hpfx]
  simp [hw]

/-- cr_receivereply dispatches to the multi-bulk decoder when the
tag-line read succeeds and the tag byte is '*'. -/
theorem receivereply_to_multibulk (st : CrState) (rc : Int) (w : Option Nat) (lineOff : Nat)
    (buf' : cr_buffer) (ev' : List RecvEvent)
    (h : cr_readln { st.buf with len := 0, idx := 0 } st.events 0 = some (rc, w, buf', ev'))
    (hrc : 0 < rc)
    (hw : w.getD 0 + 1 = lineOff)
    (hpfx : getC buf'.data ((w.getD 0 : Nat) : Int) = '*') :
    cr_receivereply st '*'
      = cr_receivemultibulk { st with buf := buf', events := ev' } lineOff := by
  unfold cr_receivereply
  simp only [h, if_pos hrc, hpfx]
  simp [hw]

/-- cr_receivebulk succeeds on any non-negative cr_readln result,
storing the (possibly stale) line pointer. -/
theorem receivebulk_ok (st : CrState) (lineOff : Nat) (blen rc : Int) (w : Option Nat)
    (buf' : cr_buffer) (ev' : List RecvEvent)
    (hatoi : crAtoi (cstr st.buf.data lineOff) = blen)
    (hread : cr_readln st.buf st.events blen = some (rc, w, buf', ev'))
    (hrc : rc ≥ 0) :
    cr_receivebulk st lineOff
      = some (CREDIS_OK,
          { st with buf := buf', events := ev',
                    reply := { st.reply with bulk := some (w.getD lineOff) } }) := by
  unfold cr_receivebulk
  simp only [hatoi, hread, if_pos hrc]

/-- cr_receivebulk fails with CREDIS_ERR_PROTOCOL exactly when
cr_readln returns a negative result. -/
theorem receivebulk_err (st : CrState) (lineOff : Nat) (blen rc : Int) (w : Option Nat)
    (buf' : cr_buffer) (ev' : List RecvEvent)
    (hatoi : crAtoi (cstr st.buf.data lineOff) = blen)
    (hread : cr_readln st.buf st.events blen = some (rc, w, buf', ev'))
    (hrc : ¬ rc ≥ 0) :
    cr_receivebulk st lineOff
      = some (CREDIS_ERR_PROTOCOL, { st with buf := buf', events := ev' }) := by
  unfold cr_receivebulk
  simp only [hatoi, hread, if_neg hrc]

/-- cr_receivemultibulk reduces to the element loop after the count
parse and the (buggy) growth step. -/
theorem receivemultibulk_eq (st : CrState) (lineOff : Nat) (bnum : Int) (fuel : Nat)
    (hatoi : crAtoi (cstr st.buf.data lineOff) = bnum)
    (hfuel : mbFuel bnum st.events = fuel) :
    cr_receivemultibulk st lineOff
      = cr_mbLoop fuel
          { st with reply := { st.reply with
              multibulk := cr_mb_realloc st.reply.multibulk bnum } }
          bnum 0 lineOff := by
  unfold cr_receivemultibulk
  simp only [hatoi, hfuel]

/-- The element loop exits successfully when the remaining count is 0,
recording the number of elements stored. -/
theorem mbLoop_done (fuel : Nat) (st : CrState) (i lv : Nat) :
    cr_mbLoop fuel st 0 i lv
      = some (CREDIS_OK, { st with reply := { st.reply with
          multibulk := { st.reply.multibulk with len := i } } }) := by
  unfold cr_mbLoop
  rw [if_pos rfl]

/-- One pass of the element loop for a non-nil element whose payload
read returns exactly the declared length. -/
theorem mbLoop_elem (fuel : Nat) (st : CrState) (bnum bnum' : Int) (i lv lv1 lv2 : Nat)
    (rc : Int) (w : Option Nat) (buf' : cr_buffer) (ev' : List RecvEvent)
    (blen rc2 : Int) (w2 : Option Nat) (buf2 : cr_buffer) (ev2 : List RecvEvent)
    (hbnum : ¬ bnum = 0)
    (hbnum' : bnum - 1 = bnum')
    (hread : cr_readln st.buf st.events 0 = some (rc, w, buf', ev'))
    (hrc : 0 < rc)
    (hlv : w.getD lv = lv1)
    (hpfx : getC buf'.data ((lv1 : Nat) : Int) = '$')
    (hatoi : crAtoi (cstr buf'.data (lv1 + 1)) = blen)
    (hne : ¬ blen = -1)
    (hread2 : cr_readln buf' ev' blen = some (rc2, w2, buf2, ev2))
    (heq : rc2 = blen)
    (hlv2 : w2.getD (lv1 + 1) = lv2) :
    cr_mbLoop (fuel + 1) st bnum i lv
      = cr_mbLoop fuel
          { st with
              buf := buf2, events := ev2,
              reply :=
                { st.reply with
                    multibulk :=
                      { st.reply.multibulk with
                          bulks := storePtr st.reply.multibulk.bulks i (some lv2) } } }
          bnum' (i + 1) lv2 := by
  conv_lhs => rw [cr_mbLoop]
  rw [if_neg hbnum]
  simp only [hread, hlv, if_pos hrc, hpfx]
  rw [if_neg (by decide : ¬ ('$' : Char) ≠ '$')]
  simp only [hatoi, if_neg hne, hread2, hlv2, hbnum']
  rw [if_neg (by omega : ¬ rc2 ≠ blen)]

/-- One pass of the element loop for a nil element ("$-1"): the NULL
marker is stored and no payload read is issued. -/
theorem mbLoop_nil (fuel : Nat) (st : CrState) (bnum bnum' : Int) (i lv lv1 : Nat)
    (rc : Int) (w : Option Nat) (buf' : cr_buffer) (ev' : List RecvEvent)
    (hbnum : ¬ bnum = 0)
    (hbnum' : bnum - 1 = bnum')
    (hread : cr_readln st.buf st.events 0 = some (rc, w, buf', ev'))
    (hrc : 0 < rc)
    (hlv : w.getD lv = lv1)
    (hpfx : getC buf'.data ((lv1 : Nat) : Int) = '$')
    (hatoi : crAtoi (cstr buf'.data (lv1 + 1)) = -1) :
    cr_mbLoop (fuel + 1) st bnum i lv
      = cr_mbLoop fuel
          { st with
              buf := buf', events := ev',
              reply :=
                { st.reply with
                    multibulk :=
                      { st.reply.multibulk with
                          bulks := storePtr st.reply.multibulk.bulks i none } } }
          bnum' (i + 1) (lv1 + 1) := by
  conv_lhs => rw [cr_mbLoop]
  rw [if_neg hbnum]
  simp only [hread, hlv, if_pos hrc, hpfx]
  rw [if_neg (by decide : ¬ ('$' : Char) ≠ '$')]
  simp only [hatoi, hbnum']
  rw [if_pos trivial]

/-- getC at a Nat offset is plain list indexing. -/
theorem getC_nat (a : List Char) (n : Nat) : getC a ((n : Nat) : Int) = a.getD n '\x00' := by
  simp [getC]

/-- cr_findnl returns its starting offset at once when the terminator
sits right there — the case of a scan whose start offset has skipped a
declared-length payload. -/
theorem findnl_hit (a : List Char) (base : Int) (count : Nat)
    (hcr : getC a base = '\r') (hlf : getC a (base + 1) = '\n') :
    cr_findnl a base (count + 1) = some base := by
  simp only [cr_findnl]
  rw [if_pos (And.intro hcr hlf)]

/-- The cr_readln loop on a successful scan: zero-terminate the CR,
report the line at the cursor, advance past the terminator. -/
theorem readlnAux_found (start : Int) (fuel : Nat) (buf : cr_buffer) (events : List RecvEvent)
    (nl : Int)
    (hfind : cr_findnl buf.data ((buf.idx : Int) + start) (buf.len - buf.idx) = some nl) :
    cr_readlnAux start fuel buf events
      = some (nl - (buf.idx : Int), some buf.idx,
          { buf with data := setC buf.data nl '\x00', idx := (nl + 2).toNat }, events) := by
  rw [cr_readlnAux]
  rw [hfind]

/-- The cr_readln loop when the scan fails and the stream yields bytes:
grow the buffer if free space is under the low-water mark, append the
received bytes at the end of the used region, and rescan. -/
theorem readlnAux_recv (start : Int) (fuel : Nat) (buf buf1 : cr_buffer)
    (events events' : List RecvEvent) (n : Int) (chunk : List Char)
    (hfind : cr_findnl buf.data ((buf.idx : Int) + start) (buf.len - buf.idx) = none)
    (hgrow : (if buf.size - buf.len < CR_BUFFER_SIZE / 10 then cr_moremem buf 1 else buf) = buf1)
    (hread : cr_receivedata (buf1.size - buf1.len) events = (n, chunk, events'))
    (hn : n > 0) :
    cr_readlnAux start (fuel + 1) buf events
      = cr_readlnAux start fuel
          { buf1 with data := writeAt buf1.data buf1.len chunk,
                      len := buf1.len + chunk.length } events' := by
  refine (cr_readlnAux.eq_3 start buf events fuel hfind).trans ?_
  simp only [hgrow, hread]
  rw [if_pos hn]

/-- cr_readln entered on an empty-or-consumed buffer: reset the
bookkeeping, then run the loop with the stream-dominating fuel (stated
against an arbitrary fuel value so a caller can normalise the fuel
expression first). -/
theorem readln_eq_aux (buf : cr_buffer) (events : List RecvEvent) (start : Int) (fuel : Nat)
    (hreset : buf.len = 0 ∨ buf.idx ≥ buf.len)
    (hfuel : fuelFor events = fuel) :
    cr_readln buf events start
      = cr_readlnAux start fuel { buf with idx := 0, len := 0 } events := by
  unfold cr_readln
  rw [if_pos hreset, hfuel]

/-- cr_readln on a buffer that is neither empty nor fully consumed and
whose scan succeeds: no reset, no receive. -/
theorem readln_found (buf : cr_buffer) (events : List RecvEvent) (start : Int) (nl : Int)
    (hnoreset : ¬ (buf.len = 0 ∨ buf.idx ≥ buf.len))
    (hfind : cr_findnl buf.data ((buf.idx : Int) + start) (buf.len - buf.idx) = some nl) :
    cr_readln buf events start
      = some (nl - (buf.idx : Int), some buf.idx,
          { buf with data := setC buf.data nl '\x00', idx := (nl + 2).toNat }, events) := by
  unfold cr_readln
  rw [if_neg hnoreset]
  exact readlnAux_found start (fuelFor events) buf events nl hfind

/-- cr_readln with start offset |p| on a buffer whose unread region is
exactly the payload p followed by CRLF: the scan skips p (whatever its
bytes, including embedded CR LF), finds the terminator immediately,
returns length |p|, and advances the cursor exactly |p| + 2 bytes. -/
theorem readln_skip_exact (pre p post : List Char) (events : List RecvEvent) (size : Nat) :
    cr_readln ⟨pre ++ p ++ '\r' :: '\n' :: post, pre.length, pre.length + p.length + 2, size⟩
        events (p.length : Int)
      = some ((p.length : Int), some pre.length,
          ⟨pre ++ p ++ '\x00' :: '\n' :: post, pre.length + p.length + 2,
            pre.length + p.length + 2, size⟩, events) := by
  have hb : ((pre.length : Int) + (p.length : Int)) = (((pre ++ p).length : Nat) : Int) := by
    simp [List.length_append]
  have hcr : getC (pre ++ p ++ '\r' :: '\n' :: post)
      ((pre.length : Int) + (p.length : Int)) = '\r' := by
    rw [hb, getC_nat, List.getD_append_right _ _ _ _ (Nat.le_refl _)]
    simp
  have hlf : getC (pre ++ p ++ '\r' :: '\n' :: post)
      ((pre.length : Int) + (p.length : Int) + 1) = '\n' := by
    have hb1 : ((pre.length : Int) + (p.length : Int) + 1)
        = ((((pre ++ p).length + 1 : Nat)) : Int) := by
      simp [List.length_append]
    rw [hb1, getC_nat, List.getD_append_right _ _ _ _ (Nat.le_succ_of_le (Nat.le_refl _))]
    simp
  have hfind : cr_findnl (pre ++ p ++ '\r' :: '\n' :: post)
      ((pre.length : Int) + (p.length : Int)) ((pre.length + p.length + 2) - pre.length)
      = some ((pre.length : Int) + (p.length : Int)) := by
    rw [show (pre.length + p.length + 2) - pre.length = p.length + 1 + 1 from by omega]
    exact findnl_hit _ _ _ hcr hlf
  have hset : setC (pre ++ p ++ '\r' :: '\n' :: post)
      ((pre.length : Int) + (p.length : Int)) '\x00' = pre ++ p ++ '\x00' :: '\n' :: post := by
    unfold setC
    rw [if_neg (by omega : ¬ ((pre.length : Int) + (p.length : Int) < 0))]
    rw [show ((pre.length : Int) + (p.length : Int)).toNat = pre.length + p.length from by omega]
    rw [List.set_append_right _ _
      (by simp [List.length_append] : (pre ++ p).length ≤ pre.length + p.length)]
    simp [List.length_append]
  rw [readln_found _ events (p.length : Int) ((pre.length : Int) + (p.length : Int))
      (by omega : ¬ (pre.length + p.length + 2 = 0 ∨ pre.length ≥ pre.length + p.length + 2))
      hfind, hset,
      show ((pre.length : Int) + (p.length : Int) + 2).toNat = pre.length + p.length + 2
        from by omega,
      show ((pre.length : Int) + (p.length : Int)) - (pre.length : Int) = (p.length : Int)
        from by omega]

/-! Theorems settling the claims. -/

/-- C4 counterexample: a receive wait that elapses with no data (a
timeout event before any byte of the reply) makes the command return
CREDIS_ERR_RECV, not CREDIS_ERR_TIMEOUT: cr_receivedata's -2 is folded
into cr_readln's -1 and surfaces as the RECV error. -/
theorem c4_counterexample :
    ((cr_receivereply (initState [.timeout]) '+').map fun r => r.1) = some CREDIS_ERR_RECV ∧
    CREDIS_ERR_RECV ≠ CREDIS_ERR_TIMEOUT := by
  constructor
  · rfl
  · decide

/-- C4 amended: a command whose receive wait elapses with no data
returns CREDIS_ERR_RECV — a bounded wait, but the same error code as a
hard receive failure, so the two are not distinguished at the public
interface (CREDIS_ERR_TIMEOUT is produced only on the send path). -/
theorem c4_amended (recvtype : Char) (rest : List RecvEvent) :
    ((cr_receivereply (initState (.timeout :: rest)) recvtype).map fun r => r.1)
      = some CREDIS_ERR_RECV ∧
    ((cr_receivereply (initState (.err :: rest)) recvtype).map fun r => r.1)
      = some CREDIS_ERR_RECV ∧
    CREDIS_ERR_RECV ≠ CREDIS_ERR_TIMEOUT := by
  refine ⟨rfl, rfl, by decide⟩

/-- C5: the terminator scan of cr_readln reads bytes at or beyond the
buffer's used length.  Two buffers that agree on every byte of [0, used)
(used = 8, cursor = 4, capacity = 16, a state satisfying the claimed
invariant) drive cr_readln with start offset 5 to different outcomes,
because cr_findnl is handed the window [cursor+start, used+start), which
lies entirely at or beyond used here; with stale "\r\n" junk at
positions 9-10 the scan even leaves the cursor at 11 > used. -/
theorem c5_theorem :
    c5dataA.take 8 = c5dataB.take 8 ∧
    ((cr_readln ⟨c5dataA, 4, 8, 16⟩ [.eof] 5).map fun r => r.1) = some 0 ∧
    ((cr_readln ⟨c5dataB, 4, 8, 16⟩ [.eof] 5).map fun r => (r.1, r.2.2.1.idx))
      = some (5, 11) := by
  refine ⟨by decide, rfl, rfl⟩

/-- C6: on a multi-bulk header count of 65 (one above the initial
capacity of 64), the growth step reallocates the pointer array to
(65/64 + 1) * 64 = 128 BYTES — room for only 16 eight-byte pointers,
fewer than the 65 required — and leaves the recorded capacity
`multibulk.size` at 64, never updating it. -/
theorem c6_theorem :
    (65 : Int) > initMultibulk.size ∧
    cr_mb_realloc initMultibulk 65 = { initMultibulk with allocBytes := 128 } ∧
    (cr_mb_realloc initMultibulk 65).allocBytes < 65 * ptrSize ∧
    (cr_mb_realloc initMultibulk 65).size = initMultibulk.size := by
  refine ⟨by decide, by decide, by decide, by decide⟩

/-- C7 counterexample: for the requested extra size 4096 (one full
chunk), cr_moremem grows the capacity by 8192 = (4096/4096 + 1) * 4096,
not by ceil(4096/4096) * 4096 = 4096 as the claim states. -/
theorem c7_counterexample :
    (cr_moremem initBuf 4096).size = initBuf.size + 8192 ∧
    ((4096 + CR_BUFFER_SIZE - 1) / CR_BUFFER_SIZE) * CR_BUFFER_SIZE = 4096 ∧
    (8192 : Nat) ≠ 4096 := by
  refine ⟨by decide, by decide, by decide⟩

/-- C7 amended: a growth call for extra size E > 0 increases the
capacity by exactly (floor(E / CHUNK) + 1) * CHUNK bytes (one chunk more
than the claimed ceil formula whenever CHUNK divides E), and afterwards
at least E bytes of free capacity are available after the used length. -/
theorem c7_amended (buf : cr_buffer) (extra : Nat)
    (_hpos : 0 < extra) (hlen : buf.len ≤ buf.size) :
    (cr_moremem buf extra).size
      = buf.size + (extra / CR_BUFFER_SIZE + 1) * CR_BUFFER_SIZE ∧
    extra ≤ (cr_moremem buf extra).size - buf.len := by
  unfold cr_moremem CR_BUFFER_SIZE
  refine ⟨rfl, ?_⟩
  have h1 := Nat.div_add_mod extra 4096
  have h2 : extra % 4096 < 4096 := Nat.mod_lt _ (by norm_num)
  simp only
  omega

/-- C7 witness: the amended growth contract evaluated at the fresh
buffer and extra size 1. -/
theorem c7_witness :
    0 < 1 ∧ initBuf.len ≤ initBuf.size ∧
    ((cr_moremem initBuf 1).size
        = initBuf.size + (1 / CR_BUFFER_SIZE + 1) * CR_BUFFER_SIZE ∧
      1 ≤ (cr_moremem initBuf 1).size - initBuf.len) :=
  ⟨by decide, by decide, c7_amended initBuf 1 (by decide) (by decide)⟩

/-- C1 counterexample: for the bulk reply header "$5\r\n" followed by
end of stream, the line read after skipping 5 bytes yields the
zero-length end-of-stream result, yet cr_receivebulk returns CREDIS_OK
(storing the stale line pointer, offset 1, as the bulk value) instead of
failing with CREDIS_ERR_PROTOCOL: the `>= 0` check accepts any
non-negative readln result. -/
theorem c1_counterexample :
    ((cr_receivereply (initState [.data ("$5\r\n".toList), .eof]) '$').map
      fun r => (r.1, r.2.reply.bulk, r.2.events))
      = some (CREDIS_OK, some 1, []) ∧
    CREDIS_OK ≠ CREDIS_ERR_PROTOCOL := by
  have h1 : cr_receivereply (initState [.data ("$5\r\n".toList), .eof]) '$'
      = cr_receivebulk (⟨c1B1, [.eof], initReply⟩ : CrState) 1 :=
    receivereply_to_bulk _ 2 (some 0) 1 c1B1 [.eof] rfl (by decide) rfl (by decide)
  have h2 : cr_receivebulk (⟨c1B1, [.eof], initReply⟩ : CrState) 1
      = some (CREDIS_OK,
          (⟨c1B2, [], { initReply with bulk := some 1 }⟩ : CrState)) :=
    receivebulk_ok (⟨c1B1, [.eof], initReply⟩ : CrState) 1 5 0 none c1B2 [] rfl rfl
      (by decide)
  refine ⟨?_, by decide⟩
  rw [h1, h2]
  rfl

/-- C1 amended: when the buffer already holds the declared-length
payload p and its CRLF at the cursor, cr_receivebulk consumes exactly
|p| payload bytes plus the terminator and returns them as the bulk
value (first conjunct); a NEGATIVE cr_readln result (hard error,
timeout or allocation failure) fails with CREDIS_ERR_PROTOCOL (second
conjunct); but ANY non-negative result — a length different from the
declared one or the zero-length end-of-stream result included — is
accepted as success with the line pointer as stored (third conjunct).
The exact-length check the original claim describes exists only in the
multi-bulk element path (`cr_readln(rhnd, blen, &line) != blen`). -/
theorem c1_amended :
    (∀ (st : CrState) (lineOff : Nat) (pre p post : List Char) (size : Nat),
      st.buf = ⟨pre ++ p ++ '\r' :: '\n' :: post, pre.length, pre.length + p.length + 2, size⟩ →
      crAtoi (cstr st.buf.data lineOff) = (p.length : Int) →
      (∀ c ∈ p, c ≠ '\x00') →
      cr_receivebulk st lineOff
        = some (CREDIS_OK,
            { st with
                buf := ⟨pre ++ p ++ '\x00' :: '\n' :: post, pre.length + p.length + 2,
                  pre.length + p.length + 2, size⟩,
                reply := { st.reply with bulk := some pre.length } }) ∧
      cstr (pre ++ p ++ '\x00' :: '\n' :: post) pre.length = p) ∧
    (∀ (st : CrState) (lineOff : Nat) (rc : Int) (w : Option Nat)
        (buf' : cr_buffer) (ev' : List RecvEvent),
      cr_readln st.buf st.events (crAtoi (cstr st.buf.data lineOff)) = some (rc, w, buf', ev') →
      rc < 0 →
      cr_receivebulk st lineOff
        = some (CREDIS_ERR_PROTOCOL, { st with buf := buf', events := ev' })) ∧
    (∀ (st : CrState) (lineOff : Nat) (rc : Int) (w : Option Nat)
        (buf' : cr_buffer) (ev' : List RecvEvent),
      cr_readln st.buf st.events (crAtoi (cstr st.buf.data lineOff)) = some (rc, w, buf', ev') →
      rc ≥ 0 →
      cr_receivebulk st lineOff
        = some (CREDIS_OK,
            { st with buf := buf', events := ev',
                      reply := { st.reply with bulk := some (w.getD lineOff) } })) := by
  refine ⟨?_, ?_, ?_⟩
  · intro st lineOff pre p post size hbuf hatoi hnul
    constructor
    · have hread : cr_readln st.buf st.events ((p.length : Nat) : Int)
          = some ((p.length : Int), some pre.length,
              ⟨pre ++ p ++ '\x00' :: '\n' :: post, pre.length + p.length + 2,
                pre.length + p.length + 2, size⟩, st.events) := by
        rw [hbuf]; exact readln_skip_exact pre p post st.events size
      have h := receivebulk_ok st lineOff (p.length : Int) (p.length : Int) (some pre.length)
          ⟨pre ++ p ++ '\x00' :: '\n' :: post, pre.length + p.length + 2,
            pre.length + p.length + 2, size⟩ st.events hatoi hread (Int.natCast_nonneg _)
      rw [h]
      rfl
    · unfold cstr
      rw [List.append_assoc, List.drop_left,
          List.takeWhile_append_of_pos (by intro a ha; simpa using hnul a ha)]
      simp
  · intro st lineOff rc w buf' ev' hread hrc
    exact receivebulk_err st lineOff _ rc w buf' ev' rfl hread (by omega)
  · intro st lineOff rc w buf' ev' hread hrc
    exact receivebulk_ok st lineOff _ rc w buf' ev' rfl hread hrc

/-- C1 witness: the exact-consumption clause of the amended claim
evaluated at the bulk reply "$3\r\nabc\r\n" already buffered (header
consumed, cursor 4): the decode returns "abc", consuming exactly 3
payload bytes plus the terminator. -/
theorem c1_witness :
    ((⟨⟨('$' :: '3' :: '\x00' :: '\n' :: []) ++ ('a' :: 'b' :: 'c' :: []) ++
          '\r' :: '\n' :: '\x00' :: [], 4, 9, 10⟩, [], initReply⟩ : CrState).buf
      = ⟨('$' :: '3' :: '\x00' :: '\n' :: []) ++ ('a' :: 'b' :: 'c' :: []) ++
          '\r' :: '\n' :: '\x00' :: [], 4, 9, 10⟩) ∧
    crAtoi (cstr (('$' :: '3' :: '\x00' :: '\n' :: []) ++ ('a' :: 'b' :: 'c' :: []) ++
        '\r' :: '\n' :: '\x00' :: []) 1) = 3 ∧
    (∀ c ∈ ('a' :: 'b' :: 'c' :: []), c ≠ '\x00') ∧
    (cr_receivebulk (⟨⟨('$' :: '3' :: '\x00' :: '\n' :: []) ++ ('a' :: 'b' :: 'c' :: []) ++
          '\r' :: '\n' :: '\x00' :: [], 4, 9, 10⟩, [], initReply⟩ : CrState) 1
        = some (CREDIS_OK,
            (⟨⟨('$' :: '3' :: '\x00' :: '\n' :: []) ++ ('a' :: 'b' :: 'c' :: []) ++
                '\x00' :: '\n' :: '\x00' :: [], 9, 9, 10⟩, [],
              { initReply with bulk := some 4 }⟩ : CrState)) ∧
      cstr (('$' :: '3' :: '\x00' :: '\n' :: []) ++ ('a' :: 'b' :: 'c' :: []) ++
          '\x00' :: '\n' :: '\x00' :: []) 4 = 'a' :: 'b' :: 'c' :: []) :=
  ⟨rfl, by decide, by decide,
    c1_amended.1
      (⟨⟨('$' :: '3' :: '\x00' :: '\n' :: []) ++ ('a' :: 'b' :: 'c' :: []) ++
          '\r' :: '\n' :: '\x00' :: [], 4, 9, 10⟩, [], initReply⟩ : CrState) 1
      ('$' :: '3' :: '\x00' :: '\n' :: []) ('a' :: 'b' :: 'c' :: []) ('\x00' :: []) 10
      rfl (by decide) (by decide)⟩

/-- C2 counterexample: a standalone nil bulk reply "$-1\r\n" (with the
server then silent, modelled by a following timeout) does not decode to
a nil marker: cr_receivebulk has no -1 special case, issues a further
read with start offset -1, and fails with CREDIS_ERR_PROTOCOL.  The
final stream shows the timeout event was consumed, i.e. a further read
was performed. -/
theorem c2_counterexample :
    ((cr_receivereply (initState [.data ("$-1\r\n".toList), .timeout]) '$').map
      fun r => (r.1, r.2.reply.bulk, r.2.events))
      = some (CREDIS_ERR_PROTOCOL, none, []) ∧
    CREDIS_ERR_PROTOCOL ≠ CREDIS_OK := by
  refine ⟨rfl, by decide⟩

/-- Full decode of the single-burst multi-bulk reply "*1\r\n$-1\r\n":
success with one NULL element, the trailing stream untouched. -/
theorem c2_run (rest : List RecvEvent) :
    cr_receivereply (initState (.data ("*1\r\n$-1\r\n".toList) :: rest)) '*'
      = some (CREDIS_OK, c2S3 rest) := by
  have hlen : ("*1\r\n$-1\r\n".toList).length = 9 := by decide
  have hfuel : fuelFor (.data ("*1\r\n$-1\r\n".toList) :: rest)
      = (rest.length + eventBytes rest + 10) + 1 := by
    simp only [fuelFor, eventBytes, List.length_cons, hlen]
    omega
  have hr : cr_readln initBuf (.data ("*1\r\n$-1\r\n".toList) :: rest) 0
      = some (2, some 0, c2B1, rest) := by
    refine (readln_eq_aux initBuf _ 0 _ (Or.inl rfl) hfuel).trans ?_
    refine (readlnAux_recv 0 _ { initBuf with idx := 0, len := 0 }
        { initBuf with idx := 0, len := 0 } _ rest 9 ("*1\r\n$-1\r\n".toList)
        ?_ ?_ ?_ (by decide)).trans ?_
    · rfl
    · rfl
    · rfl
    refine (readlnAux_found 0 _ _ rest 2 ?_).trans ?_
    · rfl
    · rfl
  have h1 : cr_receivereply (initState (.data ("*1\r\n$-1\r\n".toList) :: rest)) '*'
      = cr_receivemultibulk (c2S1 rest) 1 :=
    receivereply_to_multibulk (initState (.data ("*1\r\n$-1\r\n".toList) :: rest))
      2 (some 0) 1 c2B1 rest hr (by decide) rfl (by decide)
  have hrn1 : cr_readln c2B1 rest 0 = some (3, some 4, c2B2, rest) := by
    refine (readln_found c2B1 rest 0 7 (by decide) ?_).trans ?_
    · rfl
    · rfl
  have h2 : cr_receivemultibulk (c2S1 rest) 1
      = cr_mbLoop (1 + fuelFor rest + 1) (c2S1 rest) 1 0 1 :=
    receivemultibulk_eq (c2S1 rest) 1 1 _ rfl rfl
  have h3 : cr_mbLoop (1 + fuelFor rest + 1) (c2S1 rest) 1 0 1
      = cr_mbLoop (1 + fuelFor rest) (c2S2 rest) 0 1 5 :=
    mbLoop_nil (1 + fuelFor rest) (c2S1 rest) 1 0 0 1 4 3 (some 4) c2B2 rest
      (by decide) (by decide) hrn1 (by decide) rfl rfl rfl
  have h4 : cr_mbLoop (1 + fuelFor rest) (c2S2 rest) 0 1 5
      = some (CREDIS_OK, c2S3 rest) :=
    mbLoop_done _ _ 1 5
  rw [h1, h2, h3, h4]

/-- C2 amended: the nil special case exists only in the multi-bulk
element path, where a "$-1" element stores the NULL marker (`none`,
distinct from an empty string `some off`) without any further read (the
trailing stream `rest` is untouched); a standalone bulk reply with
header -1 is not special-cased — the decoder issues a further readLine
with start offset -1 and, with the server silent, fails with
CREDIS_ERR_PROTOCOL after consuming the next stream event. -/
theorem c2_amended :
    (∀ rest : List RecvEvent,
      ((cr_receivereply (initState (.data ("*1\r\n$-1\r\n".toList) :: rest)) '*').map
        fun r => (r.1, r.2.reply.multibulk.len, r.2.reply.multibulk.bulks.take 1, r.2.events))
        = some (CREDIS_OK, 1, [none], rest)) ∧
    (∀ rest : List RecvEvent,
      ((cr_receivereply (initState (.data ("$-1\r\n".toList) :: .timeout :: rest)) '$').map
        fun r => (r.1, r.2.reply.bulk, r.2.events))
        = some (CREDIS_ERR_PROTOCOL, none, rest)) := by
  constructor
  · intro rest
    rw [c2_run rest]
    rfl
  · intro rest
    have hlen : ("$-1\r\n".toList).length = 5 := by decide
    have hfuel : fuelFor (.data ("$-1\r\n".toList) :: .timeout :: rest)
        = (rest.length + eventBytes rest + 7) + 1 := by
      simp only [fuelFor, eventBytes, List.length_cons, hlen]
      omega
    have hr1 : cr_readln initBuf (.data ("$-1\r\n".toList) :: .timeout :: rest) 0
        = some (3, some 0, c2D1, .timeout :: rest) := by
      refine (readln_eq_aux initBuf _ 0 _ (Or.inl rfl) hfuel).trans ?_
      refine (readlnAux_recv 0 _ { initBuf with idx := 0, len := 0 }
          { initBuf with idx := 0, len := 0 } _ (.timeout :: rest) 5 ("$-1\r\n".toList)
          ?_ ?_ ?_ (by decide)).trans ?_
      · rfl
      · rfl
      · rfl
      refine (readlnAux_found 0 _ _ (.timeout :: rest) 3 ?_).trans ?_
      · rfl
      · rfl
    have h1 : cr_receivereply (initState (.data ("$-1\r\n".toList) :: .timeout :: rest)) '$'
        = cr_receivebulk
            { initState (.data ("$-1\r\n".toList) :: .timeout :: rest) with
                buf := c2D1, events := .timeout :: rest } 1 :=
      receivereply_to_bulk (initState (.data ("$-1\r\n".toList) :: .timeout :: rest))
        3 (some 0) 1 c2D1 (.timeout :: rest) hr1 (by decide) rfl (by decide)
    have hr2 : cr_readln c2D1 (.timeout :: rest) (-1)
        = some (-1, none, { c2D1 with idx := 0, len := 0 }, rest) := by
      refine (readln_eq_aux c2D1 _ (-1) _ (Or.inr (by decide)) rfl).trans ?_
      rfl
    have h2 : cr_receivebulk
          { initState (.data ("$-1\r\n".toList) :: .timeout :: rest) with
              buf := c2D1, events := .timeout :: rest } 1
        = some (CREDIS_ERR_PROTOCOL,
            { { initState (.data ("$-1\r\n".toList) :: .timeout :: rest) with
                  buf := c2D1, events := .timeout :: rest } with
                buf := { c2D1 with idx := 0, len := 0 }, events := rest }) :=
      receivebulk_err
        { initState (.data ("$-1\r\n".toList) :: .timeout :: rest) with
            buf := c2D1, events := .timeout :: rest }
        1 (-1) (-1) none { c2D1 with idx := 0, len := 0 } rest
        rfl hr2 (by omega)
    rw [h1, h2]
    rfl

/-- Full decode of the two-burst multi-bulk reply "*1\r\n" then
"$1\r\n<c>\r\n": the element bytes land at buffer position 0 because
the element-line cr_readln resets the fully-consumed buffer. -/
theorem c3_run (c : Char) (rest : List RecvEvent) :
    cr_receivereply (initState (.data ("*1\r\n".toList) ::
        .data ('$' :: '1' :: '\r' :: '\n' :: c :: '\r' :: '\n' :: []) :: rest)) '*'
      = some (CREDIS_OK, c3S3 c rest) := by
  have hlen : ("*1\r\n".toList).length = 4 := by decide
  have hfuel : fuelFor (.data ("*1\r\n".toList) ::
        .data ('$' :: '1' :: '\r' :: '\n' :: c :: '\r' :: '\n' :: []) :: rest)
      = (rest.length + eventBytes rest + 13) + 1 := by
    simp only [fuelFor, eventBytes, List.length_cons, List.length_nil, hlen]
    omega
  have hr : cr_readln initBuf (.data ("*1\r\n".toList) ::
        .data ('$' :: '1' :: '\r' :: '\n' :: c :: '\r' :: '\n' :: []) :: rest) 0
      = some (2, some 0, c3B1,
          .data ('$' :: '1' :: '\r' :: '\n' :: c :: '\r' :: '\n' :: []) :: rest) := by
    refine (readln_eq_aux initBuf _ 0 _ (Or.inl rfl) hfuel).trans ?_
    refine (readlnAux_recv 0 _ { initBuf with idx := 0, len := 0 }
        { initBuf with idx := 0, len := 0 } _
        (.data ('$' :: '1' :: '\r' :: '\n' :: c :: '\r' :: '\n' :: []) :: rest)
        4 ("*1\r\n".toList) ?_ ?_ ?_ (by decide)).trans ?_
    · rfl
    · rfl
    · rfl
    refine (readlnAux_found 0 _ _
        (.data ('$' :: '1' :: '\r' :: '\n' :: c :: '\r' :: '\n' :: []) :: rest) 2 ?_).trans ?_
    · rfl
    · rfl
  have h1 : cr_receivereply (initState (.data ("*1\r\n".toList) ::
        .data ('$' :: '1' :: '\r' :: '\n' :: c :: '\r' :: '\n' :: []) :: rest)) '*'
      = cr_receivemultibulk (c3S1 c rest) 1 :=
    receivereply_to_multibulk (initState (.data ("*1\r\n".toList) ::
        .data ('$' :: '1' :: '\r' :: '\n' :: c :: '\r' :: '\n' :: []) :: rest))
      2 (some 0) 1 c3B1
      (.data ('$' :: '1' :: '\r' :: '\n' :: c :: '\r' :: '\n' :: []) :: rest)
      hr (by decide) rfl (by decide)
  have hfuel2 : fuelFor (.data ('$' :: '1' :: '\r' :: '\n' :: c :: '\r' :: '\n' :: []) :: rest)
      = (rest.length + eventBytes rest + 8) + 1 := by
    simp only [fuelFor, eventBytes, List.length_cons, List.length_nil]
    omega
  have hrm1 : cr_readln c3B1
        (.data ('$' :: '1' :: '\r' :: '\n' :: c :: '\r' :: '\n' :: []) :: rest) 0
      = some (2, some 0, c3B2 c, rest) := by
    refine (readln_eq_aux c3B1 _ 0 _ (Or.inr (by decide)) hfuel2).trans ?_
    refine (readlnAux_recv 0 _ { c3B1 with idx := 0, len := 0 }
        { c3B1 with idx := 0, len := 0 } _ rest 7
        ('$' :: '1' :: '\r' :: '\n' :: c :: '\r' :: '\n' :: []) ?_ ?_ ?_ (by decide)).trans ?_
    · rfl
    · rfl
    · rfl
    refine (readlnAux_found 0 _ _ rest 2 ?_).trans ?_
    · rfl
    · rfl
  have hrm2 : cr_readln (c3B2 c) rest 1 = some (1, some 4, c3B3 c, rest) := by
    refine (readln_found (c3B2 c) rest 1 5 (of_decide_eq_true rfl) ?_).trans ?_
    · rfl
    · rfl
  have h2 : cr_receivemultibulk (c3S1 c rest) 1
      = cr_mbLoop
          (1 + fuelFor (.data ('$' :: '1' :: '\r' :: '\n' :: c :: '\r' :: '\n' :: []) :: rest) + 1)
          (c3S1 c rest) 1 0 1 :=
    receivemultibulk_eq (c3S1 c rest) 1 1 _ rfl rfl
  have h3 : cr_mbLoop
        (1 + fuelFor (.data ('$' :: '1' :: '\r' :: '\n' :: c :: '\r' :: '\n' :: []) :: rest) + 1)
        (c3S1 c rest) 1 0 1
      = cr_mbLoop
          (1 + fuelFor (.data ('$' :: '1' :: '\r' :: '\n' :: c :: '\r' :: '\n' :: []) :: rest))
          (c3S2 c rest) 0 1 4 :=
    mbLoop_elem
      (1 + fuelFor (.data ('$' :: '1' :: '\r' :: '\n' :: c :: '\r' :: '\n' :: []) :: rest))
      (c3S1 c rest) 1 0 0 1 0 4 2 (some 0) (c3B2 c) rest 1 1 (some 4) (c3B3 c) rest
      (by decide) (by decide) hrm1 (by decide) rfl rfl rfl (by decide) hrm2 rfl rfl
  have h4 : cr_mbLoop
        (1 + fuelFor (.data ('$' :: '1' :: '\r' :: '\n' :: c :: '\r' :: '\n' :: []) :: rest))
        (c3S2 c rest) 0 1 4
      = some (CREDIS_OK, c3S3 c rest) :=
    mbLoop_done _ _ 1 4
  rw [h1, h2, h3, h4]

/-- C3 counterexample: decoding the multi-bulk reply "*1\r\n$1\r\na\r\n"
delivered in two bursts ("*1\r\n" first).  When the element line is
read, the buffer is fully consumed (cursor = used = 4), so that
mid-decode cr_readln call resets used and cursor to zero: the element
data is written over the header (final byte 0 is '$', not '*'; final
used length is 7, not 4 + 7).  The last conjunct isolates the readln
call itself at the reachable mid-decode state `c3B1`: it returns the
line at offset 0, below the pre-call cursor 4. -/
theorem c3_counterexample :
    ((cr_receivereply (initState (.data ("*1\r\n".toList) ::
        .data ('$' :: '1' :: '\r' :: '\n' :: 'a' :: '\r' :: '\n' :: []) :: [])) '*').map
      fun r => (r.1, r.2.buf.idx, r.2.buf.len, getC r.2.buf.data 0, r.2.reply.multibulk.len))
      = some (CREDIS_OK, 7, 7, '$', 1) ∧
    '$' ≠ '*' ∧
    ((cr_readln c3B1 [.data ('$' :: '1' :: '\r' :: '\n' :: 'a' :: '\r' :: '\n' :: [])] 0).map
      fun r => (r.1, r.2.1))
      = some (2, some 0) := by
  refine ⟨?_, by decide, rfl⟩
  rw [c3_run 'a' []]
  rfl

/-- C3 amended: the buffer bookkeeping is reset by cr_receivereply at
the start of each reply cycle AND by any cr_readln call entered with the
buffer empty or fully consumed (used = 0 or cursor ≥ used) — including
calls issued mid-decode between elements of a multi-bulk reply, where
the reset lets freshly received element bytes overwrite the reply's
earlier bytes (second conjunct: for every element byte c and trailing
stream, the split "*1\r\n" / "$1\r\n<c>\r\n" decode ends with used = 7
and the header byte overwritten by '$'). -/
theorem c3_amended :
    (∀ (buf : cr_buffer) (events : List RecvEvent) (start : Int),
      buf.len = 0 ∨ buf.idx ≥ buf.len →
      cr_readln buf events start
        = cr_readln { buf with idx := 0, len := 0 } events start) ∧
    (∀ (c : Char) (rest : List RecvEvent),
      ((cr_receivereply (initState (.data ("*1\r\n".toList) ::
          .data ('$' :: '1' :: '\r' :: '\n' :: c :: '\r' :: '\n' :: []) :: rest)) '*').map
        fun r => (r.1, r.2.buf.idx, r.2.buf.len, getC r.2.buf.data 0,
                  r.2.reply.multibulk.len, r.2.events))
        = some (CREDIS_OK, 7, 7, '$', 1, rest)) := by
  constructor
  · intro buf events start h
    unfold cr_readln
    rw [if_pos h, if_pos (Or.inl rfl)]
  · intro c rest
    rw [c3_run c rest]
    rfl

/-- C3 witness: the reset-condition clause of the amended claim
evaluated at the fresh (empty) buffer. -/
theorem c3_witness :
    (initBuf.len = 0 ∨ initBuf.idx ≥ initBuf.len) ∧
    cr_readln initBuf [] 0 = cr_readln { initBuf with idx := 0, len := 0 } [] 0 :=
  ⟨Or.inl rfl, c3_amended.1 initBuf [] 0 (Or.inl rfl)⟩

/-- C8 counterexample: the malformed multi-bulk count "*x\r\n" does not
fail with CREDIS_ERR_PROTOCOL; atoi substitutes 0 and the decode
succeeds with an empty multi-bulk reply. -/
theorem c8_counterexample :
    ((cr_receivereply (initState [.data ("*x\r\n".toList)]) '*').map
      fun r => (r.1, r.2.reply.multibulk.len)) = some (CREDIS_OK, 0) ∧
    CREDIS_OK ≠ CREDIS_ERR_PROTOCOL := by
  refine ⟨rfl, by decide⟩

/-- C8 amended: malformed length and count fields are parsed with atoi,
which substitutes the value of the longest leading digit run (0 when
there is none), and decoding proceeds with that value instead of
failing: any header whose count field atoi-parses to 0 decodes as a
successful empty multi-bulk without reading further (first conjunct),
and a bulk header "$x" is treated as length 0, successfully decoding the
following empty line as an empty bulk (second conjunct). -/
theorem c8_amended :
    (∀ (st : CrState) (lineOff : Nat),
      crAtoi (cstr st.buf.data lineOff) = 0 →
      0 ≤ st.reply.multibulk.size →
      cr_receivemultibulk st lineOff
        = some (CREDIS_OK,
            { st with reply := { st.reply with
                multibulk := { st.reply.multibulk with len := 0 } } })) ∧
    (∀ rest : List RecvEvent,
      ((cr_receivereply (initState (.data ("$x\r\n\r\n".toList) :: rest)) '$').map
        fun r => (r.1, r.2.reply.bulk, cstr r.2.buf.data 4, r.2.events))
        = some (CREDIS_OK, some 4, [], rest)) := by
  constructor
  · intro st lineOff h hsize
    unfold cr_receivemultibulk
    simp only [h]
    unfold cr_mb_realloc
    rw [if_neg (by omega : ¬ (0 : Int) > st.reply.multibulk.size)]
    unfold cr_mbLoop
    rw [if_pos rfl]
  · intro rest
    have hlen : ("$x\r\n\r\n".toList).length = 6 := by decide
    have hfuel : fuelFor (.data ("$x\r\n\r\n".toList) :: rest)
        = (rest.length + eventBytes rest + 7) + 1 := by
      simp only [fuelFor, eventBytes, List.length_cons, hlen]
      omega
    have hr1 : cr_readln initBuf (.data ("$x\r\n\r\n".toList) :: rest) 0
        = some (2, some 0, c8B1, rest) := by
      refine (readln_eq_aux initBuf _ 0 _ (Or.inl rfl) hfuel).trans ?_
      refine (readlnAux_recv 0 _ { initBuf with idx := 0, len := 0 }
          { initBuf with idx := 0, len := 0 } _ rest 6 ("$x\r\n\r\n".toList)
          ?_ ?_ ?_ (by decide)).trans ?_
      · rfl
      · rfl
      · rfl
      refine (readlnAux_found 0 _ _ rest 2 ?_).trans ?_
      · rfl
      · rfl
    have h1 : cr_receivereply (initState (.data ("$x\r\n\r\n".toList) :: rest)) '$'
        = cr_receivebulk
            { initState (.data ("$x\r\n\r\n".toList) :: rest) with
                buf := c8B1, events := rest } 1 :=
      receivereply_to_bulk (initState (.data ("$x\r\n\r\n".toList) :: rest))
        2 (some 0) 1 c8B1 rest hr1 (by decide) rfl (by decide)
    have hr2 : cr_readln c8B1 rest 0 = some (0, some 4, c8B2, rest) := by
      refine (readln_found c8B1 rest 0 4 (by decide) ?_).trans ?_
      · rfl
      · rfl
    have h2 : cr_receivebulk
          { initState (.data ("$x\r\n\r\n".toList) :: rest) with
              buf := c8B1, events := rest } 1
        = some (CREDIS_OK,
            { { initState (.data ("$x\r\n\r\n".toList) :: rest) with
                  buf := c8B1, events := rest } with
                buf := c8B2, events := rest,
                reply := { (initState (.data ("$x\r\n\r\n".toList) :: rest)).reply with
                    bulk := some ((some 4).getD 1) } }) :=
      receivebulk_ok
        { initState (.data ("$x\r\n\r\n".toList) :: rest) with
            buf := c8B1, events := rest }
        1 0 0 (some 4) c8B2 rest rfl hr2 (by omega)
    rw [h1, h2]
    rfl

/-- C8 witness: the empty-count clause of the amended claim evaluated at
a fresh connection state, whose buffer holds only NUL bytes so the count
field at offset 0 is the empty string and atoi yields 0. -/
theorem c8_witness :
    crAtoi (cstr (initState []).buf.data 0) = 0 ∧
    (0 : Int) ≤ (initState []).reply.multibulk.size ∧
    cr_receivemultibulk (initState []) 0
      = some (CREDIS_OK,
          { initState [] with reply := { (initState []).reply with
              multibulk := { (initState []).reply.multibulk with len := 0 } } }) :=
  ⟨by decide, by decide, c8_amended.1 (initState []) 0 (by decide) (by decide)⟩

/-- C9: a reply whose leading tag byte differs from the expected tag and
from '-' makes cr_receivereply fail with CREDIS_ERR_PROTOCOL right after
the tag-line read: the resulting state carries only the tag-line read's
buffer and stream effects and an untouched reply slot, so no
type-specific decoder ran. -/
theorem c9_theorem (st : CrState) (recvtype : Char) (rc : Int) (w : Option Nat)
    (buf' : cr_buffer) (ev' : List RecvEvent)
    (hread : cr_readln { st.buf with len := 0, idx := 0 } st.events 0 = some (rc, w, buf', ev'))
    (hrc : 0 < rc)
    (htag : getC buf'.data ((w.getD 0 : Nat) : Int) ≠ recvtype)
    (herr : getC buf'.data ((w.getD 0 : Nat) : Int) ≠ '-') :
    cr_receivereply st recvtype
      = some (CREDIS_ERR_PROTOCOL, { st with buf := buf', events := ev' }) := by
  unfold cr_receivereply
  simp only [hread, if_pos hrc]
  rw [if_pos (And.intro htag herr)]

/-- C9 witness: expecting a bulk reply ('$') but receiving the status
line "+OK\r\n" yields CREDIS_ERR_PROTOCOL with no decoder dispatched
(buffer capacity 410 keeps the run clear of the low-water growth). -/
theorem c9_witness :
    (cr_readln { (⟨List.replicate 410 '\x00', 0, 0, 410⟩ : cr_buffer) with len := 0, idx := 0 }
        [.data ('+' :: 'O' :: 'K' :: '\r' :: '\n' :: [])] 0
      = some (3, some 0,
          ⟨'+' :: 'O' :: 'K' :: '\x00' :: '\n' :: List.replicate 405 '\x00', 5, 5, 410⟩, [])) ∧
    (0 : Int) < 3 ∧
    getC ('+' :: 'O' :: 'K' :: '\x00' :: '\n' :: List.replicate 405 '\x00') 0 ≠ '$' ∧
    getC ('+' :: 'O' :: 'K' :: '\x00' :: '\n' :: List.replicate 405 '\x00') 0 ≠ '-' ∧
    cr_receivereply
        ⟨⟨List.replicate 410 '\x00', 0, 0, 410⟩,
          [.data ('+' :: 'O' :: 'K' :: '\r' :: '\n' :: [])], initReply⟩ '$'
      = some (CREDIS_ERR_PROTOCOL,
          ⟨⟨'+' :: 'O' :: 'K' :: '\x00' :: '\n' :: List.replicate 405 '\x00', 5, 5, 410⟩,
            [], initReply⟩) :=
  ⟨by decide, by decide, by decide, by decide,
    c9_theorem _ '$' 3 (some 0) _ [] (by decide) (by decide) (by decide) (by decide)⟩

/-- C10: whenever the tag-line read yields no positive length — length 0
for peer-closed-before-a-line, or -1 for a hard error or timeout —
cr_receivereply returns CREDIS_ERR_RECV, the same code in all those
cases, and that code differs from both CREDIS_ERR_TIMEOUT and
CREDIS_ERR_PROTOCOL: at the public interface end-of-stream is reported
as the receive error and is indistinguishable from a hard failure. -/
theorem c10_theorem (st : CrState) (recvtype : Char) (rc : Int) (w : Option Nat)
    (buf' : cr_buffer) (ev' : List RecvEvent)
    (hread : cr_readln { st.buf with len := 0, idx := 0 } st.events 0 = some (rc, w, buf', ev'))
    (hrc : rc ≤ 0) :
    cr_receivereply st recvtype
      = some (CREDIS_ERR_RECV, { st with buf := buf', events := ev' }) ∧
    CREDIS_ERR_RECV ≠ CREDIS_ERR_TIMEOUT ∧
    CREDIS_ERR_RECV ≠ CREDIS_ERR_PROTOCOL := by
  refine ⟨?_, by decide, by decide⟩
  unfold cr_receivereply
  simp only [hread, if_neg (by omega : ¬ (0 : Int) < rc)]

/-- C10 witness: the peer closes after sending only the partial tag line
"+O"; the command returns CREDIS_ERR_RECV (buffer capacity 412 keeps the
run clear of the low-water growth). -/
theorem c10_witness :
    (cr_readln { (⟨List.replicate 412 '\x00', 0, 0, 412⟩ : cr_buffer) with len := 0, idx := 0 }
        [.data ('+' :: 'O' :: []), .eof] 0
      = some (0, none, ⟨'+' :: 'O' :: List.replicate 410 '\x00', 0, 2, 412⟩, [])) ∧
    (0 : Int) ≤ 0 ∧
    (cr_receivereply
        ⟨⟨List.replicate 412 '\x00', 0, 0, 412⟩, [.data ('+' :: 'O' :: []), .eof], initReply⟩ '+'
      = some (CREDIS_ERR_RECV,
          ⟨⟨'+' :: 'O' :: List.replicate 410 '\x00', 0, 2, 412⟩, [], initReply⟩) ∧
      CREDIS_ERR_RECV ≠ CREDIS_ERR_TIMEOUT ∧
      CREDIS_ERR_RECV ≠ CREDIS_ERR_PROTOCOL) :=
  ⟨by decide, by decide,
    c10_theorem _ '+' 0 none _ [] (by decide) (by decide)⟩

end Credis
